import Mathlib

/-
  Verification of the store-provisioning orchestration core
  (Backend/app/orchestrator.py, Backend/app/k8s_client.py,
   Backend/app/helm_client.py) against its specification.

  Shallow embedding conventions:
  * External effects (cluster API calls, deployment-tool runs, waits,
    status writes, record deletion, notification) are recorded as events
    in a trace; each embedded function returns its trace together with
    its Python return value, and a raised exception is an `Except.error`
    carrying the exception message.
  * The polling loop of `wait_for_namespace_deletion` is modelled with
    idealized timing: one observation per poll interval, hence
    `timeout / poll_interval` observations before the deadline; the
    cluster's successive phase reports are an oracle `Nat → NsPhase`.
  * The single store a flow operates on is the only row of interest, so
    the database is `Option StoreRec` (the row, or `none` once deleted).
  * `secrets.choice` is an oracle `Nat → Fin alphabet.length` giving the
    index drawn for each position.
-/

namespace Urumi

/-- Namespace phase as reported by the cluster: `get_namespace_status`
returns "Active", "Terminating", or `None` (modelled as `absent`). -/
inductive NsPhase
  | active
  | terminating
  | absent
deriving DecidableEq, BEq, Repr

/-- models.StoreStatus. -/
inductive StoreStatus
  | provisioning
  | ready
  | failed
  | deleting
deriving DecidableEq, BEq, Repr

/-- models.StoreType. -/
inductive StoreType
  | woocommerce
  | medusa
deriving DecidableEq, BEq, Repr

/-- Outcome of the credential-notification step (`_send_credentials_email`):
the email was sent, not sent (SMTP unconfigured or send returned false), or
an exception was raised inside the step (and caught there). -/
inductive EmailOutcome
  | sent
  | notSent
  | raised
deriving DecidableEq, BEq, Repr

/-- Observable events of the orchestration flows, in execution order. -/
inductive Ev
  | apiDeleteNs
  | waitNs (timeout : Nat) (result : Bool)
  | forceCleanup
  | apiCreateNs
  | applyQuota
  | applyLimit
  | createTls
  | skipTls
  | helmInstall
  | helmUninstall
  | addHosts
  | removeHosts
  | setStatus (st : StoreStatus)
  | dbDeleteRecord
  | sendEmail (o : EmailOutcome)
  | lockAcquire
  | lockRelease
deriving DecidableEq, BEq, Repr

/-- models.Store — the fields the orchestrator reads or writes.
The Python attribute `namespace` is spelled `ns` (Lean keyword). -/
structure StoreRec where
  id : String
  name : String
  store_type : StoreType
  status : StoreStatus
  ns : String
  store_url : Option String
  admin_url : Option String
  error_message : Option String
  updated_at : Nat
  metadata_json : Option (List (String × String))
deriving DecidableEq, Repr

/-- Python truthiness of a `str | None` value (`if error:`):
falsy exactly for `None` and the empty string. -/
def truthyStr : Option String → Bool
  | none => false
  | some s => !(s == "")

/-- Python truthiness of a `dict | None` value (`if metadata_json:`):
falsy exactly for `None` and the empty dict. -/
def truthyMeta : Option (List (String × String)) → Bool
  | none => false
  | some l => !l.isEmpty

/-- orchestrator.StoreOrchestrator._update_store_status: look the row up by
id, always rewrite `status` and `updated_at`, and rewrite each optional
field only when the corresponding argument is truthy. -/
def update_store_status (db : Option StoreRec) (store_id : String) (now : Nat)
    (status : StoreStatus) (error store_url admin_url : Option String)
    (metadata_json : Option (List (String × String))) : Option StoreRec :=
  match db with
  | none => none
  | some s =>
    if s.id = store_id then
      some { s with
        status := status
        updated_at := now
        error_message := if truthyStr error then error else s.error_message
        store_url := if truthyStr store_url then store_url else s.store_url
        admin_url := if truthyStr admin_url then admin_url else s.admin_url
        metadata_json :=
          if truthyMeta metadata_json then metadata_json else s.metadata_json }
    else some s

/-- orchestrator: `alphabet = string.ascii_letters + string.digits + "!@#$%"`. -/
def password_alphabet : List Char :=
  "abcdefghijklmnopqrstuvwxyzABCDEFGHIJKLMNOPQRSTUVWXYZ0123456789!@#$%".toList

/-- orchestrator._generate_password with the random draws given by the
oracle `pick` (one alphabet index per position). -/
def generate_password (pick : Nat → Fin password_alphabet.length)
    (length : Nat) : String :=
  String.mk ((List.range length).map fun i => password_alphabet.get (pick i))

/-- orchestrator._get_namespace. -/
def get_namespace (pre store_name : String) : String := pre ++ store_name

/-- orchestrator._get_store_url. -/
def get_store_url (base_domain store_name : String) : String :=
  "https://" ++ store_name ++ "." ++ base_domain

/-- orchestrator._get_admin_url (the trailing no-suffix return is
unreachable: StoreType has exactly these two members). -/
def get_admin_url (base_domain store_name : String) (t : StoreType) : String :=
  match t with
  | StoreType.woocommerce => "https://" ++ store_name ++ "." ++ base_domain ++ "/wp-admin"
  | StoreType.medusa => "https://" ++ store_name ++ "." ++ base_domain ++ "/admin"

/-- k8s_client.KubernetesClient.wait_for_namespace_deletion: poll the
phase once per interval until the deadline; `true` iff some poll before
the deadline observes the namespace gone. Never raises. -/
def wait_for_namespace_deletion (obs : Nat → NsPhase)
    (timeout poll_interval : Nat) : Bool :=
  (List.range (timeout / poll_interval)).any fun i => obs i == NsPhase.absent

/-- k8s_client.KubernetesClient.force_delete_namespace: clear finalizers;
every exception path is caught inside, so it only contributes its event. -/
def force_delete_namespace : List Ev := [Ev.forceCleanup]

/-- Result of the delete-namespace API call. -/
inductive DeleteApiResult
  | ok
  | notFound
  | apiError (msg : String)
deriving DecidableEq, Repr

/-- Environment of one `delete_namespace` run: the API call outcome and
the phase oracles of the two polling waits. -/
structure DeleteNsEnv where
  api : DeleteApiResult
  obs1 : Nat → NsPhase
  obs2 : Nat → NsPhase

/-- k8s_client.KubernetesClient.delete_namespace: initiate deletion (404
returns early, other API errors propagate); if `wait`, poll up to 120s,
and on timeout force-clean finalizers and poll once more up to 30s,
discarding that final result. Returns no confirmation value. -/
def delete_namespace (env : DeleteNsEnv) (wait : Bool) :
    List Ev × Except String Unit :=
  match env.api with
  | DeleteApiResult.notFound => ([Ev.apiDeleteNs], Except.ok ())
  | DeleteApiResult.apiError m => ([Ev.apiDeleteNs], Except.error m)
  | DeleteApiResult.ok =>
    if wait then
      if wait_for_namespace_deletion env.obs1 120 3 then
        ([Ev.apiDeleteNs, Ev.waitNs 120 true], Except.ok ())
      else
        ([Ev.apiDeleteNs, Ev.waitNs 120 false] ++ force_delete_namespace
          ++ [Ev.waitNs 30 (wait_for_namespace_deletion env.obs2 30 3)],
         Except.ok ())
    else ([Ev.apiDeleteNs], Except.ok ())

/-- Whether some polling wait during the run observed the namespace
Absent (i.e. deletion was confirmed at some point of the trace). -/
def nsConfirmedAbsent (tr : List Ev) : Bool :=
  tr.any fun e =>
    match e with
    | Ev.waitNs _ r => r
    | _ => false

/-- Result of the create-namespace API call. -/
inductive CreateApiResult
  | created
  | conflict409
  | forbiddenTerminating
  | apiError (msg : String)
deriving DecidableEq, Repr

/-- Environment of one `create_namespace` run: the phase reported before
creating, the two polling oracles used if it is Terminating, and the
API call outcome. -/
structure CreateNsEnv where
  phase0 : NsPhase
  obs1 : Nat → NsPhase
  obs2 : Nat → NsPhase
  api : CreateApiResult

/-- The distinct stuck-terminating diagnostic raised by create_namespace. -/
def stuck_terminating_message (ns : String) : String :=
  "Namespace " ++ ns ++ " is stuck in Terminating state. " ++
  "Please wait a moment and try again, or manually clean it up " ++
  "with: kubectl delete ns " ++ ns ++ " --force --grace-period=0"

/-- The 403 being-terminated diagnostic raised by create_namespace. -/
def being_terminated_message (ns : String) : String :=
  "Namespace " ++ ns ++ " is being terminated by Kubernetes. " ++
  "Please wait a moment and try creating the store again."

/-- The create-namespace API call and its status-code handling:
409 is treated as success; a 403 terminating conflict and any other
error propagate as exceptions. -/
def attempt_create_ns (ns : String) (api : CreateApiResult) :
    List Ev × Except String Unit :=
  match api with
  | CreateApiResult.created => ([Ev.apiCreateNs], Except.ok ())
  | CreateApiResult.conflict409 => ([Ev.apiCreateNs], Except.ok ())
  | CreateApiResult.forbiddenTerminating =>
      ([Ev.apiCreateNs], Except.error (being_terminated_message ns))
  | CreateApiResult.apiError m => ([Ev.apiCreateNs], Except.error m)

/-- k8s_client.KubernetesClient.create_namespace: if the namespace is
Terminating, wait up to 120s; on timeout force-clean finalizers and wait
up to 30s more; if still present raise the stuck-terminating error,
otherwise proceed to the API create call. -/
def create_namespace (env : CreateNsEnv) (ns : String) :
    List Ev × Except String Unit :=
  if env.phase0 = NsPhase.terminating then
    if wait_for_namespace_deletion env.obs1 120 3 then
      ([Ev.waitNs 120 true] ++ (attempt_create_ns ns env.api).1,
       (attempt_create_ns ns env.api).2)
    else
      if wait_for_namespace_deletion env.obs2 30 3 then
        ([Ev.waitNs 120 false] ++ force_delete_namespace ++ [Ev.waitNs 30 true]
          ++ (attempt_create_ns ns env.api).1,
         (attempt_create_ns ns env.api).2)
      else
        ([Ev.waitNs 120 false] ++ force_delete_namespace ++ [Ev.waitNs 30 false],
         Except.error (stuck_terminating_message ns))
  else attempt_create_ns ns env.api

/-- Outcome of an idempotent create call (quota / limit range / secret):
created, 409 already-exists (success), or another API error (raised). -/
inductive ResOutcome
  | ok
  | conflict409
  | apiError (msg : String)
deriving DecidableEq, Repr

/-- k8s_client.KubernetesClient.apply_resource_quota: 409 is success. -/
def apply_resource_quota (o : ResOutcome) : List Ev × Except String Unit :=
  match o with
  | ResOutcome.ok => ([Ev.applyQuota], Except.ok ())
  | ResOutcome.conflict409 => ([Ev.applyQuota], Except.ok ())
  | ResOutcome.apiError m => ([Ev.applyQuota], Except.error m)

/-- k8s_client.KubernetesClient.apply_limit_range: 409 is success. -/
def apply_limit_range (o : ResOutcome) : List Ev × Except String Unit :=
  match o with
  | ResOutcome.ok => ([Ev.applyLimit], Except.ok ())
  | ResOutcome.conflict409 => ([Ev.applyLimit], Except.ok ())
  | ResOutcome.apiError m => ([Ev.applyLimit], Except.error m)

/-- Environment of the TLS step: whether the cert/key files exist, and
the secret-creation API outcome if they do. -/
structure TlsEnv where
  certAvailable : Bool
  outcome : ResOutcome
deriving DecidableEq, Repr

/-- orchestrator.StoreOrchestrator._create_tls_secret: skip with a warning
when the cert material is missing; otherwise create the secret (409 is
success, other errors raise). -/
def create_tls_secret_step (env : TlsEnv) : List Ev × Except String Unit :=
  if env.certAvailable then
    match env.outcome with
    | ResOutcome.ok => ([Ev.createTls], Except.ok ())
    | ResOutcome.conflict409 => ([Ev.createTls], Except.ok ())
    | ResOutcome.apiError m => ([Ev.createTls], Except.error m)
  else ([Ev.skipTls], Except.ok ())

/-- One deployment-tool invocation: exit code and captured streams. -/
structure HelmEnv where
  rc : Nat
  stdout : String
  stderr : String
deriving DecidableEq, Repr

/-- Python str.strip(): drop leading and trailing whitespace. -/
def pyStrip (s : String) : String :=
  String.mk
    (((s.data.dropWhile Char.isWhitespace).reverse.dropWhile
      Char.isWhitespace).reverse)

/-- helm_client.HelmClient.install: success iff exit code 0; the returned
output is the stripped stdout on success and the stripped stderr on
failure (`.decode().strip()` in `_run`). -/
def helm_install (env : HelmEnv) : Bool × String :=
  (env.rc == 0, if env.rc == 0 then pyStrip env.stdout else pyStrip env.stderr)

/-- Environment of one `_provision` run: the outcome oracle of each
fallible external step, the configuration flags it reads, the generated
passwords, and the clock value used for `updated_at`. -/
structure ProvisionEnv where
  createNs : CreateNsEnv
  quota : ResOutcome
  limitRange : ResOutcome
  tls : TlsEnv
  helm : HelmEnv
  inCluster : Bool
  baseDomain : String
  wpPassword : String
  dbPassword : String
  email : EmailOutcome
  now : Nat

/-- The credentials metadata persisted on READY (orchestrator._provision). -/
def credentials_meta (store : StoreRec) (wp db : String) :
    List (String × String) :=
  [("admin_user", "admin"), ("admin_password", wp),
   ("db_password", db), ("helm_release", store.name)]

/-- orchestrator.StoreOrchestrator._send_credentials_email: the whole body
is wrapped in try/except, so it never raises and never touches the store
row; only its outcome is observable. -/
def send_credentials_email (o : EmailOutcome) : List Ev := [Ev.sendEmail o]

/-- orchestrator.StoreOrchestrator._provision: namespace, quota, limit
range, TLS, deployment-tool install, hosts entry, READY status with URLs
and credentials metadata, then the notification step. Any step's
exception aborts the sequence and propagates (third component). -/
def provision (env : ProvisionEnv) (db : Option StoreRec) (store : StoreRec) :
    List Ev × Option StoreRec × Option String :=
  let s1 := create_namespace env.createNs store.ns
  match s1.2 with
  | Except.error e => (s1.1, db, some e)
  | Except.ok _ =>
  let s2 := apply_resource_quota env.quota
  match s2.2 with
  | Except.error e => (s1.1 ++ s2.1, db, some e)
  | Except.ok _ =>
  let s3 := apply_limit_range env.limitRange
  match s3.2 with
  | Except.error e => (s1.1 ++ s2.1 ++ s3.1, db, some e)
  | Except.ok _ =>
  let s4 := create_tls_secret_step env.tls
  match s4.2 with
  | Except.error e => (s1.1 ++ s2.1 ++ s3.1 ++ s4.1, db, some e)
  | Except.ok _ =>
  let hi := helm_install env.helm
  if hi.1 = false then
    (s1.1 ++ s2.1 ++ s3.1 ++ s4.1 ++ [Ev.helmInstall], db,
     some ("Helm install failed: " ++ hi.2))
  else
    let tHosts : List Ev := if env.inCluster then [] else [Ev.addHosts]
    let surl := get_store_url env.baseDomain store.name
    let aurl := get_admin_url env.baseDomain store.name store.store_type
    let db2 := update_store_status db store.id env.now StoreStatus.ready
      none (some surl) (some aurl)
      (some (credentials_meta store env.wpPassword env.dbPassword))
    (s1.1 ++ s2.1 ++ s3.1 ++ s4.1 ++ [Ev.helmInstall] ++ tHosts
      ++ [Ev.setStatus StoreStatus.ready] ++ send_credentials_email env.email,
     db2, none)

/-- orchestrator.StoreOrchestrator.create_store: if the per-id lock is
already held, return immediately (no event, no mutation); otherwise run
`_provision` under the lock, converting any exception into a FAILED
status write, and release the lock in the final step. -/
def create_store (lockHeld : Bool) (env : ProvisionEnv)
    (db : Option StoreRec) (store : StoreRec) : List Ev × Option StoreRec :=
  if lockHeld then ([], db)
  else
    match provision env db store with
    | (tr, db1, none) => ([Ev.lockAcquire] ++ tr ++ [Ev.lockRelease], db1)
    | (tr, db1, some e) =>
      let db2 := update_store_status db1 store.id env.now StoreStatus.failed
        (some e) none none none
      ([Ev.lockAcquire] ++ tr ++ [Ev.setStatus StoreStatus.failed, Ev.lockRelease],
       db2)

/-- Environment of one `delete_store` run. -/
structure DeleteEnv where
  uninstallOk : Bool
  delNs : DeleteNsEnv
  inCluster : Bool
  now : Nat

/-- orchestrator.StoreOrchestrator.delete_store: set DELETING, uninstall
the release (warning only on failure), delete the namespace with
wait=true, remove the hosts entry, then delete the row; an exception is
caught and converted into a FAILED status with a "Delete failed: "
diagnostic, retaining the row. -/
def delete_store (env : DeleteEnv) (db : Option StoreRec) (store : StoreRec) :
    List Ev × Option StoreRec :=
  let db1 := update_store_status db store.id env.now StoreStatus.deleting
    none none none none
  let t0 : List Ev := [Ev.setStatus StoreStatus.deleting, Ev.helmUninstall]
  let sNs := delete_namespace env.delNs true
  match sNs.2 with
  | Except.error e =>
    let db2 := update_store_status db1 store.id env.now StoreStatus.failed
      (some ("Delete failed: " ++ e)) none none none
    (t0 ++ sNs.1 ++ [Ev.setStatus StoreStatus.failed], db2)
  | Except.ok _ =>
    let tHosts : List Ev := if env.inCluster then [] else [Ev.removeHosts]
    let db2 : Option StoreRec :=
      match db1 with
      | some s => if s.id = store.id then none else some s
      | none => none
    (t0 ++ sNs.1 ++ tHosts ++ [Ev.dbDeleteRecord], db2)

/-- A sample READY store row used for concrete runs. -/
def sampleStore : StoreRec :=
  { id := "id-1", name := "acme", store_type := StoreType.woocommerce
  , status := StoreStatus.ready, ns := "store-acme"
  , store_url := some "https://acme.local.store.dev"
  , admin_url := some "https://acme.local.store.dev/wp-admin"
  , error_message := none, updated_at := 0
  , metadata_json := some [("admin_user", "admin")] }

/-- A delete run whose namespace never leaves Terminating: every poll of
both waits observes Terminating, so neither wait confirms deletion. -/
def stuckDeleteEnv : DeleteEnv :=
  { uninstallOk := true
  , delNs := { api := DeleteApiResult.ok
             , obs1 := fun _ => NsPhase.terminating
             , obs2 := fun _ => NsPhase.terminating }
  , inCluster := false, now := 7 }

/-- A namespace-deletion run where the first poll already sees Absent. -/
def delNsEnvConfirmed : DeleteNsEnv :=
  { api := DeleteApiResult.ok
  , obs1 := fun _ => NsPhase.absent
  , obs2 := fun _ => NsPhase.absent }

/-- A namespace-deletion run where no poll ever sees Absent. -/
def delNsEnvStuck : DeleteNsEnv :=
  { api := DeleteApiResult.ok
  , obs1 := fun _ => NsPhase.terminating
  , obs2 := fun _ => NsPhase.terminating }

/-- A delete run whose namespace deletion is confirmed right away. -/
def happyDeleteEnv : DeleteEnv :=
  { uninstallOk := true, delNs := delNsEnvConfirmed, inCluster := false, now := 3 }

/-- Number of lock acquisitions recorded in a trace. -/
def lockAcquireCount (tr : List Ev) : Nat :=
  tr.countP fun e => decide (e = Ev.lockAcquire)


/-- A create-namespace run with an Active (not Terminating) phase report
and a plain successful API create. -/
def baseCreateNsOk : CreateNsEnv :=
  { phase0 := NsPhase.active, obs1 := fun _ => NsPhase.active
  , obs2 := fun _ => NsPhase.active, api := CreateApiResult.created }

/-- A provisioning run in which every external step succeeds. -/
def happyProvisionEnv : ProvisionEnv :=
  { createNs := baseCreateNsOk, quota := ResOutcome.ok
  , limitRange := ResOutcome.ok
  , tls := { certAvailable := false, outcome := ResOutcome.ok }
  , helm := { rc := 0, stdout := "deployed", stderr := "" }
  , inCluster := false, baseDomain := "local.store.dev"
  , wpPassword := "wp-secret", dbPassword := "db-secret"
  , email := EmailOutcome.sent, now := 5 }

/-- A provisioning run in which the deployment-tool install exits 1. -/
def helmFailEnv : ProvisionEnv :=
  { happyProvisionEnv with
    helm := { rc := 1, stdout := "", stderr := " chart install error\n" } }

/-- A provisioning run whose target namespace never leaves Terminating. -/
def stuckProvisionEnv : ProvisionEnv :=
  { happyProvisionEnv with
    createNs := { phase0 := NsPhase.terminating
                , obs1 := fun _ => NsPhase.terminating
                , obs2 := fun _ => NsPhase.terminating
                , api := CreateApiResult.created } }

/-- The oracle that always draws the first alphabet character. -/
def pickZero : Nat → Fin password_alphabet.length := fun _ => ⟨0, by decide⟩

/-
  Helper lemmas about the step traces.
-/

lemma attempt_create_ns_fst (ns : String) (api : CreateApiResult) :
    (attempt_create_ns ns api).1 = [Ev.apiCreateNs] := by
  cases api <;> rfl

lemma apply_resource_quota_fst (o : ResOutcome) :
    (apply_resource_quota o).1 = [Ev.applyQuota] := by
  cases o <;> rfl

lemma apply_limit_range_fst (o : ResOutcome) :
    (apply_limit_range o).1 = [Ev.applyLimit] := by
  cases o <;> rfl

lemma lockAcquire_notin_create_namespace (env : CreateNsEnv) (ns : String) :
    Ev.lockAcquire ∉ (create_namespace env ns).1 := by
  unfold create_namespace
  split_ifs <;> simp [attempt_create_ns_fst, force_delete_namespace]

lemma lockAcquire_notin_tls (env : TlsEnv) :
    Ev.lockAcquire ∉ (create_tls_secret_step env).1 := by
  unfold create_tls_secret_step
  split_ifs
  · cases env.outcome <;> simp
  · simp

lemma lockAcquire_notin_provision (env : ProvisionEnv) (db : Option StoreRec)
    (store : StoreRec) : Ev.lockAcquire ∉ (provision env db store).1 := by
  have h1 := lockAcquire_notin_create_namespace env.createNs store.ns
  have h4 := lockAcquire_notin_tls env.tls
  cases hc1 : (create_namespace env.createNs store.ns).2 with
  | error e => simp [provision, hc1, h1]
  | ok _ =>
    cases hc2 : (apply_resource_quota env.quota).2 with
    | error e => simp [provision, hc1, hc2, apply_resource_quota_fst, h1]
    | ok _ =>
      cases hc3 : (apply_limit_range env.limitRange).2 with
      | error e =>
        simp [provision, hc1, hc2, hc3, apply_resource_quota_fst,
          apply_limit_range_fst, h1]
      | ok _ =>
        cases hc4 : (create_tls_secret_step env.tls).2 with
        | error e =>
          simp [provision, hc1, hc2, hc3, hc4, apply_resource_quota_fst,
            apply_limit_range_fst, h1, h4]
        | ok _ =>
          cases hh : (helm_install env.helm).1 with
          | false =>
            simp [provision, hc1, hc2, hc3, hc4, hh, apply_resource_quota_fst,
              apply_limit_range_fst, h1, h4]
          | true =>
            cases hic : env.inCluster <;>
              simp [provision, hc1, hc2, hc3, hc4, hh, hic,
                apply_resource_quota_fst, apply_limit_range_fst, h1, h4,
                send_credentials_email]

lemma lockAcquire_notin_delete_namespace (env : DeleteNsEnv) (w : Bool) :
    Ev.lockAcquire ∉ (delete_namespace env w).1 := by
  cases ha : env.api with
  | notFound => simp [delete_namespace, ha]
  | apiError m => simp [delete_namespace, ha]
  | ok =>
    simp only [delete_namespace, ha]
    split_ifs <;> simp [force_delete_namespace]

lemma lockAcquire_notin_delete_store (env : DeleteEnv) (db : Option StoreRec)
    (store : StoreRec) : Ev.lockAcquire ∉ (delete_store env db store).1 := by
  have hns := lockAcquire_notin_delete_namespace env.delNs true
  cases hc : (delete_namespace env.delNs true).2 with
  | error e => simp [delete_store, hc, hns]
  | ok _ => cases hic : env.inCluster <;> simp [delete_store, hc, hic, hns]

/-
  Claim theorems.
-/

/-- C1: the claim says the persisted record is removed only after the
namespace is observed Absent, and never removed when deletion is not
confirmed. The code violates this: in a run where every poll of both
bounded waits observes the namespace still Terminating (so deletion is
never confirmed), `delete_store` nevertheless proceeds to remove the row,
because `delete_namespace` discards the result of its final wait and
returns no confirmation. This theorem evaluates the embedded flow at such
a run: the row ends up deleted, the trace contains the record-deletion
event, and no wait in the trace ever confirmed the namespace Absent. -/
theorem C1_record_removed_without_confirmation :
    (delete_store stuckDeleteEnv (some sampleStore) sampleStore).2 = none ∧
    (delete_store stuckDeleteEnv (some sampleStore) sampleStore).1.contains
      Ev.dbDeleteRecord = true ∧
    nsConfirmedAbsent
      (delete_store stuckDeleteEnv (some sampleStore) sampleStore).1 = false := by
  decide

/-- C2 counterexample: `delete_namespace` with wait=true does not return a
value indicating whether the namespace is confirmed Absent — a run whose
first poll confirms Absent and a run in which no poll ever confirms it
return the exact same value (unit success), so the return value cannot
indicate confirmation. -/
theorem C2_counterexample :
    (delete_namespace delNsEnvConfirmed true).2 =
      (delete_namespace delNsEnvStuck true).2 ∧
    nsConfirmedAbsent (delete_namespace delNsEnvConfirmed true).1 = true ∧
    nsConfirmedAbsent (delete_namespace delNsEnvStuck true).1 = false :=
  ⟨rfl, rfl, rfl⟩

/-- C2 (amended): for every namespace deletion run whose API call
succeeds, `delete_namespace` with wait=true polls until Absent or the
120-second deadline; on deadline it attempts force-cleanup and polls once
more with the shorter 30-second deadline; it never raises on timeout
(the result is unit success in every case) — but it returns no
confirmation value: the final poll's result is discarded. -/
theorem C2_delete_wait_behavior (env : DeleteNsEnv)
    (h : env.api = DeleteApiResult.ok) :
    (delete_namespace env true).2 = Except.ok () ∧
    (delete_namespace env true).1 =
      (if wait_for_namespace_deletion env.obs1 120 3 then
        [Ev.apiDeleteNs, Ev.waitNs 120 true]
      else
        [Ev.apiDeleteNs, Ev.waitNs 120 false, Ev.forceCleanup,
         Ev.waitNs 30 (wait_for_namespace_deletion env.obs2 30 3)]) := by
  cases hw : wait_for_namespace_deletion env.obs1 120 3 <;>
    simp [delete_namespace, h, hw, force_delete_namespace]

/-- Witness for C2: the amended behavior evaluated on the concrete run
whose polls never observe Absent. -/
theorem C2_delete_wait_behavior_witness :
    (delete_namespace delNsEnvStuck true).2 = Except.ok () ∧
    (delete_namespace delNsEnvStuck true).1 =
      [Ev.apiDeleteNs, Ev.waitNs 120 false, Ev.forceCleanup,
       Ev.waitNs 30 false] := by
  have h := C2_delete_wait_behavior delNsEnvStuck rfl
  exact ⟨h.1, h.2.trans (by decide)⟩

/-- C3 counterexample: the claim says both in-flight flows run under the
per-id exclusive execution lock, but the delete flow performs all its
work (sets DELETING, removes the record) without ever acquiring the
lock: its trace contains no lock-acquire event. -/
theorem C3_counterexample :
    (delete_store happyDeleteEnv (some sampleStore) sampleStore).1.contains
      Ev.lockAcquire = false ∧
    (delete_store happyDeleteEnv (some sampleStore) sampleStore).1.contains
      (Ev.setStatus StoreStatus.deleting) = true ∧
    (delete_store happyDeleteEnv (some sampleStore) sampleStore).1.contains
      Ev.dbDeleteRecord = true := by
  decide

/-- C3 (amended): only the create flow acquires the per-store-id
exclusive execution lock (its trace starts with the acquisition and
contains the release); the delete flow performs its work without ever
acquiring the per-id lock. -/
theorem C3_only_create_flow_locks :
    ∀ (penv : ProvisionEnv) (denv : DeleteEnv) (db : Option StoreRec)
      (store : StoreRec),
      (create_store false penv db store).1.head? = some Ev.lockAcquire ∧
      Ev.lockRelease ∈ (create_store false penv db store).1 ∧
      Ev.lockAcquire ∉ (delete_store denv db store).1 := by
  intro penv denv db store
  refine ⟨?_, ?_, lockAcquire_notin_delete_store denv db store⟩
  · rcases hp : provision penv db store with ⟨tr, db1, err⟩
    cases err <;> simp [create_store, hp]
  · rcases hp : provision penv db store with ⟨tr, db1, err⟩
    cases err <;> simp [create_store, hp]

/-- C6: a create trigger that finds the per-id lock already held returns
immediately with no event and no database change (benign no-op), while
an executing create trigger acquires the lock exactly once — so of two
concurrent create triggers for the same id, exactly one executes a
provisioning attempt. -/
theorem C6_duplicate_trigger_noop :
    ∀ (env : ProvisionEnv) (db : Option StoreRec) (store : StoreRec),
      create_store true env db store = ([], db) ∧
      lockAcquireCount (create_store true env db store).1 = 0 ∧
      lockAcquireCount (create_store false env db store).1 = 1 := by
  intro env db store
  refine ⟨rfl, rfl, ?_⟩
  have hnp := lockAcquire_notin_provision env db store
  rcases hp : provision env db store with ⟨tr, db1, err⟩
  rw [hp] at hnp
  have hz : tr.countP (fun e => decide (e = Ev.lockAcquire)) = 0 := by
    rw [List.countP_eq_zero]
    intro a ha
    simp only [decide_eq_true_eq]
    exact fun hae => hnp (hae ▸ ha)
  cases err <;>
    simp [create_store, hp, lockAcquireCount, List.countP_append,
      List.countP_cons, hz]

lemma str_append_ne_empty (a b : String) (h : ¬ a = "") : ¬ (a ++ b) = "" := by
  intro hab
  apply h
  have hd := congrArg String.data hab
  rw [String.data_append a b] at hd
  exact String.ext (List.append_eq_nil.mp hd).1

lemma stuck_terminating_message_ne_empty (ns : String) :
    ¬ stuck_terminating_message ns = "" := by
  unfold stuck_terminating_message
  repeat apply str_append_ne_empty
  decide

lemma helm_failed_message_ne_empty (out : String) :
    ¬ ("Helm install failed: " ++ out) = "" := by
  apply str_append_ne_empty
  decide

lemma provision_snd_ns_error (env : ProvisionEnv) (db : Option StoreRec)
    (store : StoreRec) (e : String)
    (h : (create_namespace env.createNs store.ns).2 = Except.error e) :
    (provision env db store).2 = (db, some e) := by
  simp [provision, h]

lemma provision_snd_helm_fail (env : ProvisionEnv) (db : Option StoreRec)
    (store : StoreRec)
    (hns : (create_namespace env.createNs store.ns).2 = Except.ok ())
    (hq : (apply_resource_quota env.quota).2 = Except.ok ())
    (hl : (apply_limit_range env.limitRange).2 = Except.ok ())
    (htls : (create_tls_secret_step env.tls).2 = Except.ok ())
    (hrc : env.helm.rc ≠ 0) :
    (provision env db store).2 =
      (db, some ("Helm install failed: " ++ pyStrip env.helm.stderr)) := by
  have hbeq : (env.helm.rc == 0) = false := beq_eq_false_iff_ne.mpr hrc
  simp [provision, hns, hq, hl, htls, helm_install, hbeq]

lemma provision_snd_ready (env : ProvisionEnv) (db : Option StoreRec)
    (store : StoreRec)
    (hns : (create_namespace env.createNs store.ns).2 = Except.ok ())
    (hq : (apply_resource_quota env.quota).2 = Except.ok ())
    (hl : (apply_limit_range env.limitRange).2 = Except.ok ())
    (htls : (create_tls_secret_step env.tls).2 = Except.ok ())
    (hrc : env.helm.rc = 0) :
    (provision env db store).2 =
      (update_store_status db store.id env.now StoreStatus.ready none
        (some (get_store_url env.baseDomain store.name))
        (some (get_admin_url env.baseDomain store.name store.store_type))
        (some (credentials_meta store env.wpPassword env.dbPassword)), none) := by
  cases hic : env.inCluster <;>
    simp [provision, hns, hq, hl, htls, helm_install, hrc, hic]

lemma create_store_snd_error (env : ProvisionEnv) (db db1 : Option StoreRec)
    (store : StoreRec) (e : String)
    (h : (provision env db store).2 = (db1, some e)) :
    (create_store false env db store).2 =
      update_store_status db1 store.id env.now StoreStatus.failed (some e)
        none none none := by
  rcases hp : provision env db store with ⟨tr, db1x, err⟩
  rw [hp] at h
  have h1 : db1x = db1 := congrArg Prod.fst h
  have h2 : err = some e := congrArg Prod.snd h
  subst h1; subst h2
  simp [create_store, hp]

lemma create_store_snd_ok (env : ProvisionEnv) (db db1 : Option StoreRec)
    (store : StoreRec)
    (h : (provision env db store).2 = (db1, none)) :
    (create_store false env db store).2 = db1 := by
  rcases hp : provision env db store with ⟨tr, db1x, err⟩
  rw [hp] at h
  have h1 : db1x = db1 := congrArg Prod.fst h
  have h2 : err = none := congrArg Prod.snd h
  subst h1; subst h2
  simp [create_store, hp]

/-- C4: for a create-namespace run whose target namespace is reported
Terminating: the code first waits (bounded, 120s); if that wait does not
confirm Absent it force-cleans finalizers and waits again (30s); if the
namespace is still not Absent, the run fails with the distinct
stuck-terminating error without ever calling the create API, and the
enclosing create flow ends FAILED (never READY) with that diagnostic as
the error message. When the first wait succeeds the create call proceeds.
When the namespace is already Absent the create call is made directly,
and a 409 already-exists response is treated as success. -/
theorem C4_stuck_terminating (penv : ProvisionEnv) (store : StoreRec)
    (h0 : penv.createNs.phase0 = NsPhase.terminating)
    (h1 : wait_for_namespace_deletion penv.createNs.obs1 120 3 = false)
    (h2 : wait_for_namespace_deletion penv.createNs.obs2 30 3 = false) :
    (create_namespace penv.createNs store.ns).2 =
      Except.error (stuck_terminating_message store.ns) ∧
    Ev.apiCreateNs ∉ (create_namespace penv.createNs store.ns).1 ∧
    Option.map StoreRec.status (create_store false penv (some store) store).2
      = some StoreStatus.failed ∧
    Option.map StoreRec.status (create_store false penv (some store) store).2
      ≠ some StoreStatus.ready ∧
    Option.map StoreRec.error_message
        (create_store false penv (some store) store).2
      = some (some (stuck_terminating_message store.ns)) ∧
    (∀ (env : CreateNsEnv) (ns : String), env.phase0 = NsPhase.absent →
      env.api = CreateApiResult.conflict409 →
      create_namespace env ns = ([Ev.apiCreateNs], Except.ok ())) ∧
    (∀ (env : CreateNsEnv) (ns : String),
      env.phase0 = NsPhase.terminating →
      wait_for_namespace_deletion env.obs1 120 3 = true →
      (create_namespace env ns).1 = [Ev.waitNs 120 true, Ev.apiCreateNs] ∧
      (env.api = CreateApiResult.conflict409 →
        (create_namespace env ns).2 = Except.ok ())) := by
  have hns : (create_namespace penv.createNs store.ns).2 =
      Except.error (stuck_terminating_message store.ns) := by
    simp [create_namespace, h0, h1, h2]
  have hcs := create_store_snd_error penv (some store) (some store) store
    (stuck_terminating_message store.ns)
    (provision_snd_ns_error penv (some store) store _ hns)
  have hne : ((stuck_terminating_message store.ns) == "") = false :=
    beq_eq_false_iff_ne.mpr (stuck_terminating_message_ne_empty store.ns)
  refine ⟨hns, ?_, ?_, ?_, ?_, ?_, ?_⟩
  · simp [create_namespace, h0, h1, h2, force_delete_namespace]
  · rw [hcs]; simp [update_store_status, truthyStr, hne]
  · rw [hcs]; simp [update_store_status, truthyStr, hne]
  · rw [hcs]; simp [update_store_status, truthyStr, hne]
  · intro env ns ha hc
    simp [create_namespace, ha, attempt_create_ns, hc]
  · intro env ns ht hw
    constructor
    · simp [create_namespace, ht, hw, attempt_create_ns_fst]
    · intro hc
      simp [create_namespace, ht, hw, attempt_create_ns, hc]

/-- Witness for C4: the stuck-terminating branch evaluated on a concrete
run whose polls all observe Terminating. -/
theorem C4_stuck_terminating_witness :
    (create_namespace stuckProvisionEnv.createNs sampleStore.ns).2 =
      Except.error (stuck_terminating_message "store-acme") ∧
    Option.map StoreRec.status
        (create_store false stuckProvisionEnv (some sampleStore) sampleStore).2
      = some StoreStatus.failed := by
  have h := C4_stuck_terminating stuckProvisionEnv sampleStore rfl
    (by decide) (by decide)
  exact ⟨h.1, h.2.2.1⟩

/-- C5: in every create-flow run whose earlier steps succeed and whose
deployment-tool install exits non-zero, the store ends FAILED (in
particular not PROVISIONING), and the error message is exactly the
"Helm install failed: " prefix followed by the tool's captured (stripped)
stderr — the captured stderr appears verbatim in errorMessage. -/
theorem C5_helm_failure_sets_failed (env : ProvisionEnv) (store : StoreRec)
    (hns : (create_namespace env.createNs store.ns).2 = Except.ok ())
    (hq : (apply_resource_quota env.quota).2 = Except.ok ())
    (hl : (apply_limit_range env.limitRange).2 = Except.ok ())
    (htls : (create_tls_secret_step env.tls).2 = Except.ok ())
    (hrc : env.helm.rc ≠ 0) :
    Option.map StoreRec.status (create_store false env (some store) store).2
      = some StoreStatus.failed ∧
    Option.map StoreRec.status (create_store false env (some store) store).2
      ≠ some StoreStatus.provisioning ∧
    Option.map StoreRec.error_message
        (create_store false env (some store) store).2
      = some (some ("Helm install failed: " ++ pyStrip env.helm.stderr)) := by
  have hcs := create_store_snd_error env (some store) (some store) store
    ("Helm install failed: " ++ pyStrip env.helm.stderr)
    (provision_snd_helm_fail env (some store) store hns hq hl htls hrc)
  have hne : (("Helm install failed: " ++ pyStrip env.helm.stderr) == "")
      = false :=
    beq_eq_false_iff_ne.mpr (helm_failed_message_ne_empty (pyStrip env.helm.stderr))
  refine ⟨?_, ?_, ?_⟩ <;>
    · rw [hcs]; simp [update_store_status, truthyStr, hne]

/-- Witness for C5: the install-failure behavior evaluated on a concrete
run whose tool exits 1 with stderr " chart install error\n". -/
theorem C5_helm_failure_witness :
    Option.map StoreRec.status
        (create_store false helmFailEnv (some sampleStore) sampleStore).2
      = some StoreStatus.failed ∧
    Option.map StoreRec.error_message
        (create_store false helmFailEnv (some sampleStore) sampleStore).2
      = some (some "Helm install failed: chart install error") := by
  have h := C5_helm_failure_sets_failed helmFailEnv sampleStore rfl rfl rfl rfl
    (by decide)
  exact ⟨h.1, h.2.2.trans (by decide)⟩

/-- C7: in every create-flow run that reaches READY, the outcome of the
credential-notification step (sent, not sent, or an exception raised and
caught inside the step) never changes the resulting database state: the
store's final status is READY for every outcome, the final state equals
the state of the same run with any other outcome, and the notification
step did execute after the READY write. -/
theorem C7_notification_never_changes_status (env : ProvisionEnv)
    (store : StoreRec)
    (hns : (create_namespace env.createNs store.ns).2 = Except.ok ())
    (hq : (apply_resource_quota env.quota).2 = Except.ok ())
    (hl : (apply_limit_range env.limitRange).2 = Except.ok ())
    (htls : (create_tls_secret_step env.tls).2 = Except.ok ())
    (hrc : env.helm.rc = 0) :
    ∀ (o : EmailOutcome),
      Option.map StoreRec.status
          (create_store false { env with email := o } (some store) store).2
        = some StoreStatus.ready ∧
      (create_store false { env with email := o } (some store) store).2 =
        (create_store false env (some store) store).2 ∧
      Ev.sendEmail o ∈
        (create_store false { env with email := o } (some store) store).1 := by
  intro o
  have hcs := create_store_snd_ok { env with email := o } (some store) _ store
    (provision_snd_ready { env with email := o } (some store) store hns hq hl
      htls hrc)
  have hcs2 := create_store_snd_ok env (some store) _ store
    (provision_snd_ready env (some store) store hns hq hl htls hrc)
  refine ⟨?_, ?_, ?_⟩
  · rw [hcs]; simp [update_store_status, truthyStr, truthyMeta]
  · rw [hcs, hcs2]
  · rcases hp : provision { env with email := o } (some store) store
      with ⟨tr, db1, err⟩
    have hsnd := provision_snd_ready { env with email := o } (some store)
      store hns hq hl htls hrc
    rw [hp] at hsnd
    have herr : err = none := congrArg Prod.snd hsnd
    subst herr
    have hmem : Ev.sendEmail o ∈ tr := by
      have hin : Ev.sendEmail o ∈ (provision { env with email := o }
          (some store) store).1 := by
        cases hic : env.inCluster <;>
          simp [provision, hns, hq, hl, htls, helm_install, hrc, hic,
            send_credentials_email]
      rw [hp] at hin
      exact hin
    simp [create_store, hp, hmem]

/-- Witness for C7: the notification step raising inside a concrete
otherwise-successful run leaves the final state READY and identical to
the run where the notification succeeded. -/
theorem C7_notification_witness :
    Option.map StoreRec.status
        (create_store false
          { happyProvisionEnv with email := EmailOutcome.raised }
          (some sampleStore) sampleStore).2
      = some StoreStatus.ready ∧
    (create_store false { happyProvisionEnv with email := EmailOutcome.raised }
        (some sampleStore) sampleStore).2 =
      (create_store false happyProvisionEnv (some sampleStore) sampleStore).2 := by
  have h := C7_notification_never_changes_status happyProvisionEnv sampleStore
    rfl rfl rfl rfl rfl EmailOutcome.raised
  exact ⟨h.1, h.2.1⟩

/-- C8: the URLs are deterministic functions of the store name, the
configured base domain, and the type: the store URL is
"https://" ++ name ++ "." ++ baseDomain for every type, and the admin URL
appends "/wp-admin" (woocommerce) or "/admin" (medusa) to that same base
URL. -/
theorem C8_deterministic_urls (base_domain store_name : String) :
    get_store_url base_domain store_name =
      "https://" ++ store_name ++ "." ++ base_domain ∧
    get_admin_url base_domain store_name StoreType.woocommerce =
      get_store_url base_domain store_name ++ "/wp-admin" ∧
    get_admin_url base_domain store_name StoreType.medusa =
      get_store_url base_domain store_name ++ "/admin" :=
  ⟨rfl, rfl, rfl⟩

/-- C9: for every requested length L and every sequence of random draws,
the generated password has exactly L characters and every character lies
in the fixed alphabet of upper-case letters, lower-case letters, digits,
and the safe symbol subset. -/
theorem C9_password_length_and_alphabet
    (pick : Nat → Fin password_alphabet.length) (L : Nat) :
    (generate_password pick L).length = L ∧
    ∀ c ∈ (generate_password pick L).data, c ∈ password_alphabet := by
  constructor
  · simp [generate_password, String.length]
  · intro c hc
    simp only [generate_password, String.data, List.mem_map,
      List.mem_range] at hc
    obtain ⟨i, _, hi⟩ := hc
    rw [← hi]
    exact List.get_mem password_alphabet (pick i).1 (pick i).2

/-- Witness for C9: the generator evaluated with the always-first-index
oracle at length 4. -/
theorem C9_password_witness :
    (generate_password pickZero 4).length = 4 ∧ 'a' ∈ password_alphabet :=
  ⟨(C9_password_length_and_alphabet pickZero 4).1,
   (C9_password_length_and_alphabet pickZero 4).2 'a' (by decide)⟩

/-- C10: the status-update helper always rewrites status and updated_at,
and whenever an optional argument (error, store_url, admin_url,
metadata_json) is None the corresponding store field keeps its previous
value. -/
theorem C10_update_preserves_unset_fields (s : StoreRec) (now : Nat)
    (st : StoreStatus) (e su au : Option String)
    (m : Option (List (String × String))) :
    Option.map StoreRec.status
        (update_store_status (some s) s.id now st e su au m) = some st ∧
    Option.map StoreRec.updated_at
        (update_store_status (some s) s.id now st e su au m) = some now ∧
    (e = none → Option.map StoreRec.error_message
        (update_store_status (some s) s.id now st e su au m)
      = some s.error_message) ∧
    (su = none → Option.map StoreRec.store_url
        (update_store_status (some s) s.id now st e su au m)
      = some s.store_url) ∧
    (au = none → Option.map StoreRec.admin_url
        (update_store_status (some s) s.id now st e su au m)
      = some s.admin_url) ∧
    (m = none → Option.map StoreRec.metadata_json
        (update_store_status (some s) s.id now st e su au m)
      = some s.metadata_json) := by
  refine ⟨?_, ?_, ?_, ?_, ?_, ?_⟩
  · simp [update_store_status]
  · simp [update_store_status]
  · intro h; subst h; simp [update_store_status, truthyStr]
  · intro h; subst h; simp [update_store_status, truthyStr]
  · intro h; subst h; simp [update_store_status, truthyStr]
  · intro h; subst h; simp [update_store_status, truthyMeta]

/-- Witness for C10: marking the concrete READY sample store FAILED with
all optional arguments None retains its URLs and metadata while the
status is rewritten. -/
theorem C10_update_witness :
    Option.map StoreRec.status
        (update_store_status (some sampleStore) sampleStore.id 9
          StoreStatus.failed none none none none) = some StoreStatus.failed ∧
    Option.map StoreRec.store_url
        (update_store_status (some sampleStore) sampleStore.id 9
          StoreStatus.failed none none none none) = some sampleStore.store_url ∧
    Option.map StoreRec.admin_url
        (update_store_status (some sampleStore) sampleStore.id 9
          StoreStatus.failed none none none none) = some sampleStore.admin_url ∧
    Option.map StoreRec.metadata_json
        (update_store_status (some sampleStore) sampleStore.id 9
          StoreStatus.failed none none none none)
      = some sampleStore.metadata_json := by
  have h := C10_update_preserves_unset_fields sampleStore 9 StoreStatus.failed
    none none none none
  exact ⟨h.1, h.2.2.2.1 rfl, h.2.2.2.2.1 rfl, h.2.2.2.2.2 rfl⟩

end Urumi
